import Mathlib

/-!
Verification of the Tara cooperative-fiber runtime core
(Source/Runtime.cxx: the public wrapper layer and the Scheduler).

The C++ source is shallowly embedded: machine state that the scheduler
mutates (per-fiber fields, the ready/dead queues, IOPoll wait lists) is
modelled as explicit functional state, syscalls are modelled as oracle
parameters describing their results, and error codes are plain integers
with the usual Linux errno values.
-/

namespace Tara

/-! ### errno values (from errno.h, Linux) -/

def EINTR : Int := 4
def EBADF : Int := 9
def EWOULDBLOCK : Int := 11
def ETIME : Int := 62
def ETIMEDOUT : Int := 110
def ECONNREFUSED : Int := 111
def EINPROGRESS : Int := 115

/-! ### Data model: the Fiber record (Fiber.hxx via its uses in Runtime.cxx)

A fiber holds its coroutine, a saved machine context (null before the
fiber has ever run; modelled as an `Option` over opaque context tokens),
a resumption status, the fd it is currently awaiting (`-1` if none), and
its TimerQueue linkage (modelled as a membership flag). -/

structure Fiber where
  coroutine : Nat
  context : Option Nat
  status : Int
  fd : Int
  inTimer : Bool
deriving DecidableEq

/-- Modelled from the spec: the fresh-Fiber constructor lives in Fiber.hxx,
which is not under src/. Per the spec data model, a fresh fiber has a null
saved context, status 0 and no awaited fd. -/
def CreateFiberModel (coroutine : Nat) : Fiber :=
  { coroutine := coroutine, context := none, status := 0, fd := -1, inTimer := false }

/-! ### awaitIOEvent (Scheduler::awaitIOEvent, Runtime.cxx lines 485-508)

The function saves its context via setjmp. `setjmp` returns 0 on the
initial save (the function then suspends the fiber and dispatches
another), and returns the non-zero status delivered by a later longjmp
when the fiber is resumed. We model the resume branch as a function of
the delivered status, returning `some (ret, errnoSet)`; the result is
`none` for status 0, which is the initial-save branch that does not
return from here. -/

def awaitIOEventResume (status : Int) : Option (Int × Option Int) :=
  if status = 0 then
    none
  else if status < 0 then
    some (-1, some (-status))
  else
    some (0, none)

/-- Suspend side of Scheduler::awaitIOEvent (lines 497-501): stores the
saved context, sets status to 1, records the awaited fd, links the fiber
into the IOPoll wait set for (fd, event) and adds a TimerQueue item. -/
def awaitIOEventSuspend (f : Fiber) (ctx : Nat) (fd : Int) : Fiber :=
  { f with context := some ctx, status := 1, fd := fd, inTimer := true }

/-- Suspend side of Scheduler::yieldCurrentFiber (lines 419-424): saves
the running fiber's context and sets its status to 1. -/
def yieldSuspend (f : Fiber) (ctx : Nat) : Fiber :=
  { f with context := some ctx, status := 1 }

/-- Suspend side of Scheduler::sleepCurrentFiber (lines 434-440): saves
the context, sets status 1 and adds a TimerQueue item. -/
def sleepSuspend (f : Fiber) (ctx : Nat) : Fiber :=
  { f with context := some ctx, status := 1, inTimer := true }

/-! ### Timer phase of Scheduler::run (lines 378-390)

For each due TimerItem, the owning fiber is woken: if its `fd` is >= 0
(it was awaiting I/O) it is removed from the IOPoll wait set for that fd,
its `fd` is cleared and its status is set to `-ETIME`; in either case the
fiber is enqueued at the tail of the ready queue. `removeDueItems`
unlinks the item from the TimerQueue, so the fiber leaves the timer. -/

def timerExpireWake (f : Fiber) : Fiber :=
  if f.fd ≥ 0 then
    { f with fd := -1, status := -ETIME, inTimer := false }
  else
    { f with inTimer := false }

/-- The timer phase's effect on the ready queue: every due fiber is woken
via `timerExpireWake` and appended, in order, at the tail. -/
def timerPhaseWake (ready : List Fiber) (due : List Fiber) : List Fiber :=
  ready ++ due.map timerExpireWake

/-! ### Fiber death and dispatch (Scheduler::killCurrentFiber lines
455-467, Scheduler::executeFiber lines 402-411) -/

/-- Scheduler::killCurrentFiber's effect on the dying fiber: clears the
saved context and zeroes the status before dead-queueing it. -/
def killCurrentFiberReset (f : Fiber) : Fiber :=
  { f with context := none, status := 0 }

/-- What Scheduler::executeFiber does with the target fiber: bootstrap a
fresh stack via RunFiber when no context is saved, otherwise longjmp to
the saved context delivering the fiber's status. -/
inductive ExecAction where
  | bootstrap : ExecAction
  | longjmpWith : Int → ExecAction
deriving DecidableEq

def executeFiberAction (f : Fiber) : ExecAction :=
  match f.context with
  | none => ExecAction.bootstrap
  | some _ => ExecAction.longjmpWith f.status

/-- Fiber wake on a poll readiness event. Modelled from the spec: the
IOPoll splicing path is in IOPoll.hxx/.cxx, not under src/; per the spec,
each woken fiber's status is set to +1. Only the status assignment is
relied upon here. -/
def pollWakeFiber (f : Fiber) : Fiber :=
  { f with status := 1 }

/-- Per-fiber effect of Scheduler::unwatchIO (lines 475-479) on a drained
fiber: its TimerQueue item is removed and its status is set to -EBADF. -/
def unwatchDrainFiber (f : Fiber) : Fiber :=
  { f with inTimer := false, status := -EBADF }

/-- The status/context invariant: a fiber has status 0 exactly when it
has no saved context. -/
def FiberInv (f : Fiber) : Prop :=
  f.status = 0 ↔ f.context = none

instance (f : Fiber) : Decidable (FiberInv f) := by
  unfold FiberInv
  infer_instance

/-! ### Scheduler state (Scheduler.hxx via its uses in Runtime.cxx)

The scheduler owns the ready queue and the dead queue (intrusive FIFO
lists, modelled as Lean lists with the head at the front), the total
fiber count, the fiber currently running, and the IOPoll wait sets. A
fiber's membership in a wait set is recorded by keeping the Fiber record
in `ioWaiters`; its `fd` field names the awaited descriptor. -/

structure SchedState where
  fiberCount : Nat
  readyQueue : List Fiber
  deadQueue : List Fiber
  ioWaiters : List Fiber
  runningFiber : Option Fiber
deriving DecidableEq

/-- Scheduler::callCoroutine (Runtime.cxx lines 305-317): if the dead
queue is non-empty, pop its head, reassign its coroutine and reuse it;
otherwise create a fresh fiber and increment the fiber count. The chosen
fiber is inserted at the tail of the ready queue; no context switch
happens. -/
def callCoroutine (s : SchedState) (coroutine : Nat) : SchedState :=
  match s.deadQueue with
  | fiber :: rest =>
    { s with
      deadQueue := rest
      readyQueue := s.readyQueue ++ [{ fiber with coroutine := coroutine }] }
  | [] =>
    { s with
      fiberCount := s.fiberCount + 1
      readyQueue := s.readyQueue ++ [CreateFiberModel coroutine] }

/-- The public entry Tara::Call (Runtime.cxx lines 19-27): a null
thread-local scheduler is fatal (modelled by `none`); with a live
scheduler, a non-null coroutine is forwarded to callCoroutine and a null
coroutine is ignored. -/
def Call (sched : Option SchedState) (coroutine : Option Nat) : Option SchedState :=
  match sched with
  | none => none
  | some s =>
    match coroutine with
    | some c => some (callCoroutine s c)
    | none => some s

/-- Modelled from the spec: IOPoll::removeEventAwaiters lives in
IOPoll.hxx/.cxx, not under src/; per the spec, unwatch drains every fiber
waiting on the given fd, in order, and leaves the rest. The first
component is the drained list, the second the remaining wait sets. -/
def removeEventAwaiters (waiters : List Fiber) (fd : Int) :
    List Fiber × List Fiber :=
  (waiters.filter (fun f => f.fd = fd), waiters.filter (fun f => ¬ f.fd = fd))

/-- Scheduler::unwatchIO (Runtime.cxx lines 469-483): drain every fiber
waiting on fd out of IOPoll, remove each drained fiber's TimerQueue item
and set its status to -EBADF, then append the drained list at the tail
of the ready queue. -/
def unwatchIODrain (s : SchedState) (fd : Int) : SchedState :=
  let drained := (removeEventAwaiters s.ioWaiters fd).1
  { s with
    ioWaiters := (removeEventAwaiters s.ioWaiters fd).2
    readyQueue := s.readyQueue ++ drained.map unwatchDrainFiber }

/-! ### Syscall wrappers: Close and Connect (Runtime.cxx lines 121-143
and 241-268)

The kernel's behaviour is an oracle parameter: each syscall invocation
is described by a `SysRes`, either success with a value or failure with
an errno. -/

inductive SysRes where
  | ok : Int → SysRes
  | err : Int → SysRes
deriving DecidableEq

/-- The close retry loop in Tara::Close (lines 130-136): call close
repeatedly, stopping on success or on any error other than EINTR. The
oracle lists the successive close results; `none` means the oracle list
was exhausted while still retrying. -/
def closeRetryLoop : List SysRes → Option SysRes
  | [] => none
  | SysRes.ok v :: _ => some (SysRes.ok v)
  | SysRes.err e :: rest =>
    if e = EINTR then closeRetryLoop rest else some (SysRes.err e)

/-- Outcome of a wrapper call: its return value, the errno it leaves for
the caller (when it sets one), and which collaborators it invoked. -/
structure CloseOutcome where
  ret : Int
  errnoOut : Option Int
  closeCalled : Bool
  unwatchCalled : Bool
deriving DecidableEq

/-- Tara::Close (Runtime.cxx lines 121-143): an unwatched fd fails with
EBADF before any syscall; a watched fd runs the close retry loop and
calls unwatchIO afterward on both the failure path and the success
path. -/
def Close (watched : Bool) (closeResults : List SysRes) : Option CloseOutcome :=
  if ¬ watched then
    some { ret := -1, errnoOut := some EBADF, closeCalled := false, unwatchCalled := false }
  else
    match closeRetryLoop closeResults with
    | none => none
    | some (SysRes.ok _) =>
      some { ret := 0, errnoOut := none, closeCalled := true, unwatchCalled := true }
    | some (SysRes.err e) =>
      some { ret := -1, errnoOut := some e, closeCalled := true, unwatchCalled := true }

/-- The I/O readiness events of IOEvent.hxx. -/
inductive IOEvent where
  | Readability : IOEvent
  | Writability : IOEvent
deriving DecidableEq

structure ConnectOutcome where
  ret : Int
  errnoOut : Option Int
  connectAttempts : Nat
  awaited : Option IOEvent
deriving DecidableEq

/-- Tara::Connect (Runtime.cxx lines 241-268). Oracles: `connectRes` is
the result of the single connect call; `resumeStatus` is the status the
scheduler delivers when the awaiting fiber is resumed (fed through
`awaitIOEventResume`); `soError` is the getsockopt(SO_ERROR) result,
whose ok value is the pending socket error. An unwatched fd fails with
EBADF. On connect failure with an errno other than EINTR/EINPROGRESS the
error is returned directly; otherwise the fiber awaits Writability and
then consults SO_ERROR. -/
def Connect (watched : Bool) (connectRes : SysRes) (resumeStatus : Int)
    (soError : SysRes) : Option ConnectOutcome :=
  if ¬ watched then
    some { ret := -1, errnoOut := some EBADF, connectAttempts := 0, awaited := none }
  else
    match connectRes with
    | SysRes.ok _ =>
      some { ret := 0, errnoOut := none, connectAttempts := 1, awaited := none }
    | SysRes.err e =>
      if ¬ e = EINTR ∧ ¬ e = EINPROGRESS then
        some { ret := -1, errnoOut := some e, connectAttempts := 1, awaited := none }
      else
        match awaitIOEventResume resumeStatus with
        | none => none
        | some (r, eo) =>
          if r < 0 then
            some { ret := -1, errnoOut := eo, connectAttempts := 1,
                   awaited := some IOEvent.Writability }
          else
            match soError with
            | SysRes.err e2 =>
              some { ret := -1, errnoOut := some e2, connectAttempts := 1,
                     awaited := some IOEvent.Writability }
            | SysRes.ok optval =>
              if ¬ optval = 0 then
                some { ret := -1, errnoOut := some optval, connectAttempts := 1,
                       awaited := some IOEvent.Writability }
              else
                some { ret := 0, errnoOut := none, connectAttempts := 1,
                       awaited := some IOEvent.Writability }

/-! ### CreateFiber's mmap failure check (Runtime.cxx lines 512-527)

`mmap` reports failure by returning the sentinel MAP_FAILED, which is
(void*)-1, never the null pointer. The source compares the returned
region against nullptr. We model the possible results of mmap and the
check exactly as written. -/

inductive MmapResult where
  | addr : Nat → MmapResult
  | nullPtr : MmapResult
  | mapFailed : MmapResult
deriving DecidableEq

/-- The failure test CreateFiber performs on the mmap result, as written
in the source (line 519): `region == nullptr` triggers the fatal log. -/
def createFiberFatalCheck (r : MmapResult) : Bool :=
  match r with
  | MmapResult.nullPtr => true
  | _ => false

/-- Whether the kernel reports this mmap result as a failure. -/
def mmapFailed (r : MmapResult) : Bool :=
  match r with
  | MmapResult.mapFailed => true
  | _ => false

/-- Whether CreateFiber goes on to construct a Fiber record on the
mapping: it does so whenever its fatal check does not fire. -/
def createFiberConstructs (r : MmapResult) : Bool :=
  ! createFiberFatalCheck r

/-! ### FIFO dispatch model for the ready queue (Scheduler::run and
Scheduler::yieldCurrentFiber)

Every insertion into the ready queue in the source is a tail insertion
(QUEUE_INSERT_TAIL / QUEUE_ADD) and every dispatch removes the head
(QUEUE_HEAD then QUEUE_REMOVE), so the ready queue is a strict FIFO. The
step relation below captures exactly those two operations; a pop event
is a dispatch, i.e. the popped fiber runs. Fibers are identified by
naturals here. -/

inductive QEv where
  | pop : Nat → QEv
  | push : Nat → QEv
deriving DecidableEq

inductive QStep : List Nat → QEv → List Nat → Prop where
  | pop (x : Nat) (q : List Nat) : QStep (x :: q) (QEv.pop x) q
  | push (x : Nat) (q : List Nat) : QStep q (QEv.push x) (q ++ [x])

inductive QSteps : List Nat → List QEv → List Nat → Prop where
  | nil (q : List Nat) : QSteps q [] q
  | cons {q q1 q2 : List Nat} {e : QEv} {evs : List QEv} :
      QStep q e q1 → QSteps q1 evs q2 → QSteps q (e :: evs) q2

def popsOf (evs : List QEv) : List Nat :=
  evs.filterMap (fun e => match e with | QEv.pop x => some x | QEv.push _ => none)

def pushesOf (evs : List QEv) : List Nat :=
  evs.filterMap (fun e => match e with | QEv.push x => some x | QEv.pop _ => none)

/-- Scheduler::yieldCurrentFiber (Runtime.cxx lines 413-429) as a queue
transformation: with an empty ready queue it is a no-op (`none`);
otherwise the running fiber is inserted at the tail and the head is
popped and dispatched. The result is the dispatched fiber and the
remaining queue. -/
def yieldCurrentFiber (self : Nat) (ready : List Nat) : Option (Nat × List Nat) :=
  if ready.isEmpty then
    none
  else
    match ready ++ [self] with
    | d :: rest => some (d, rest)
    | [] => none

/-! ### Example inputs used by the witnesses -/

def exampleFiber : Fiber :=
  { coroutine := 0, context := some 2, status := 1, fd := 3, inTimer := true }

def exampleDeadFiber : Fiber :=
  { coroutine := 5, context := none, status := 0, fd := -1, inTimer := false }

def exampleSchedRecycle : SchedState :=
  { fiberCount := 1, readyQueue := [], deadQueue := [exampleDeadFiber],
    ioWaiters := [], runningFiber := none }

def exampleSchedFresh : SchedState :=
  { fiberCount := 0, readyQueue := [], deadQueue := [],
    ioWaiters := [], runningFiber := none }

/-! ### Helper lemmas about the FIFO step relation -/

theorem qsteps_pops_append {q0 : List Nat} {evs : List QEv} {q1 : List Nat}
    (h : QSteps q0 evs q1) : popsOf evs ++ q1 = q0 ++ pushesOf evs := by
  induction h with
  | nil q => simp [popsOf, pushesOf]
  | cons hstep _ ih =>
    cases hstep with
    | pop x q =>
      simp only [popsOf, pushesOf, List.filterMap_cons] at ih ⊢
      simpa using ih
    | push x q =>
      simp only [popsOf, pushesOf, List.filterMap_cons] at ih ⊢
      simpa [List.append_assoc] using ih

theorem append_cons_inj {a : Nat} :
    ∀ (p t u v : List Nat), p ++ a :: u = t ++ a :: v → a ∉ p → a ∉ t →
      p = t ∧ u = v := by
  intro p
  induction p with
  | nil =>
    intro t u v h _ ht
    cases t with
    | nil =>
      simp only [List.nil_append, List.cons.injEq] at h
      exact ⟨rfl, h.2⟩
    | cons b t =>
      simp only [List.nil_append, List.cons_append, List.cons.injEq] at h
      exact absurd (by rw [h.1]; exact List.mem_cons_self b t) ht
  | cons b p ih =>
    intro t u v h hp ht
    cases t with
    | nil =>
      simp only [List.nil_append, List.cons_append, List.cons.injEq] at h
      exact absurd (by rw [← h.1]; exact List.mem_cons_self b p) hp
    | cons c t =>
      simp only [List.cons_append, List.cons.injEq] at h
      have hrec := ih t u v h.2
        (fun hm => hp (List.mem_cons_of_mem b hm))
        (fun hm => ht (List.mem_cons_of_mem c hm))
      exact ⟨by rw [h.1, hrec.1], hrec.2⟩

/-! ### Claim theorems -/

/-- C5: when a fiber suspended in awaitIOEvent is resumed, a positive
delivered status makes awaitIOEvent return 0, and a negative status
makes it set errno to the negation of the status and return -1. -/
theorem await_io_event_resume_status_convention (status : Int) :
    (0 < status → awaitIOEventResume status = some (0, none)) ∧
    (status < 0 → awaitIOEventResume status = some (-1, some (-status))) := by
  constructor
  · intro h
    unfold awaitIOEventResume
    rw [if_neg (by omega), if_neg (by omega)]
  · intro h
    unfold awaitIOEventResume
    rw [if_neg (by omega), if_pos h]

theorem await_io_event_resume_status_convention_witness :
    ((0 : Int) < 1 ∧ awaitIOEventResume 1 = some (0, none)) ∧
    ((-9 : Int) < 0 ∧ awaitIOEventResume (-9) = some (-1, some 9)) :=
  ⟨⟨by decide, (await_io_event_resume_status_convention 1).1 (by decide)⟩,
   ⟨by decide, (await_io_event_resume_status_convention (-9)).2 (by decide)⟩⟩

/-- C1 counterexample: the timer phase wakes an I/O-awaiting fiber with
status -ETIME (= -62), not -ETIMEDOUT (= -110) as the claim states, so
the resumed awaitIOEvent reports errno ETIME, not ETIMEDOUT. -/
theorem timer_phase_wake_not_etimedout :
    (timerExpireWake exampleFiber).status ≠ -ETIMEDOUT ∧
    awaitIOEventResume (timerExpireWake exampleFiber).status
      ≠ some (-1, some ETIMEDOUT) := by
  decide

/-- C1 (amended): when the deadline of an awaitIOEvent expires before the
fd becomes ready, the scheduler's timer phase wakes the owning fiber
(appending it to the ready-queue tail), clears its fd to -1 and sets its
status to -ETIME, so awaitIOEvent returns -1 with errno ETIME. -/
theorem timer_phase_wake_sets_etime (f : Fiber) (ready : List Fiber)
    (h : f.fd ≥ 0) :
    (timerExpireWake f).fd = -1 ∧
    (timerExpireWake f).status = -ETIME ∧
    (timerExpireWake f).inTimer = false ∧
    timerPhaseWake ready [f] = ready ++ [timerExpireWake f] ∧
    awaitIOEventResume (-ETIME) = some (-1, some ETIME) := by
  refine ⟨?_, ?_, ?_, ?_, by decide⟩
  · unfold timerExpireWake
    rw [if_pos h]
  · unfold timerExpireWake
    rw [if_pos h]
  · unfold timerExpireWake
    rw [if_pos h]
  · simp [timerPhaseWake]

theorem timer_phase_wake_sets_etime_witness :
    exampleFiber.fd ≥ 0 ∧ (timerExpireWake exampleFiber).status = -ETIME :=
  ⟨by decide, (timer_phase_wake_sets_etime exampleFiber [] (by decide)).2.1⟩

/-- C10: the public Call with a null coroutine leaves the scheduler state
unchanged (no fiber created, recycled or enqueued; fiberCount the same),
while the fatal null-scheduler check still fires first: with no installed
scheduler the call is fatal even when the coroutine is null. -/
theorem call_null_coroutine_noop (s : SchedState) (c : Option Nat) :
    Call (some s) none = some s ∧
    Call none c = none ∧
    Call (some s) (some 0) = some (callCoroutine s 0) := by
  exact ⟨rfl, rfl, rfl⟩

/-- C9: scheduler operations preserve the invariant that a fiber has
status 0 exactly when its saved context is null: killCurrentFiber
establishes both together; each suspension point (yield, sleep, await)
stores a non-null context with status 1; the wakeup paths (timer expiry,
unwatch drain, poll readiness) overwrite the status of an
already-suspended fiber with a non-zero value; and executeFiber
bootstraps the stack exactly when the context is null, otherwise
longjmping with the non-zero saved status. -/
theorem fiber_status_context_invariant (f : Fiber) (ctx : Nat) (fd : Int) :
    FiberInv (killCurrentFiberReset f) ∧
    FiberInv (yieldSuspend f ctx) ∧
    FiberInv (sleepSuspend f ctx) ∧
    FiberInv (awaitIOEventSuspend f ctx fd) ∧
    (FiberInv f → ¬ f.context = none → FiberInv (timerExpireWake f)) ∧
    (FiberInv f → ¬ f.context = none → FiberInv (unwatchDrainFiber f)) ∧
    (FiberInv f → ¬ f.context = none → FiberInv (pollWakeFiber f)) ∧
    (executeFiberAction f = ExecAction.bootstrap ↔ f.context = none) ∧
    (FiberInv f → ¬ f.context = none →
      executeFiberAction f = ExecAction.longjmpWith f.status ∧ ¬ f.status = 0) := by
  refine ⟨?_, ?_, ?_, ?_, ?_, ?_, ?_, ?_, ?_⟩
  · simp [FiberInv, killCurrentFiberReset]
  · simp [FiberInv, yieldSuspend]
  · simp [FiberInv, sleepSuspend]
  · simp [FiberInv, awaitIOEventSuspend]
  · intro hInv hctx
    unfold timerExpireWake
    by_cases h : f.fd ≥ 0
    · rw [if_pos h]
      unfold FiberInv
      constructor
      · intro habs
        exact absurd habs (show ¬ (-ETIME : Int) = 0 by decide)
      · intro hnone
        exact absurd hnone hctx
    · rw [if_neg h]
      exact hInv
  · intro hInv hctx
    unfold FiberInv unwatchDrainFiber
    constructor
    · intro habs
      exact absurd habs (show ¬ (-EBADF : Int) = 0 by decide)
    · intro hnone
      exact absurd hnone hctx
  · intro hInv hctx
    unfold FiberInv pollWakeFiber
    constructor
    · intro habs
      exact absurd habs (show ¬ (1 : Int) = 0 by decide)
    · intro hnone
      exact absurd hnone hctx
  · cases hc : f.context with
    | none => simp [executeFiberAction, hc]
    | some a => simp [executeFiberAction, hc]
  · intro hInv hctx
    cases hc : f.context with
    | none => exact absurd hc hctx
    | some a =>
      refine ⟨by simp [executeFiberAction, hc], ?_⟩
      intro h0
      exact hctx (hInv.mp h0)

theorem fiber_status_context_invariant_witness :
    (FiberInv exampleFiber ∧ ¬ exampleFiber.context = none) ∧
    FiberInv (timerExpireWake exampleFiber) ∧
    FiberInv (unwatchDrainFiber exampleFiber) :=
  ⟨⟨by decide, by decide⟩,
   (fiber_status_context_invariant exampleFiber 0 0).2.2.2.2.1 (by decide) (by decide),
   (fiber_status_context_invariant exampleFiber 0 0).2.2.2.2.2.1 (by decide) (by decide)⟩

/-- C2: unwatchIO drains every fiber waiting on the fd from the IOPoll
wait sets, removes each drained fiber's TimerQueue entry, sets its status
to -EBADF, and appends the drained fibers to the ready-queue tail, so
each such fiber's pending awaitIOEvent resumes returning -1 with errno
EBADF. -/
theorem unwatch_io_drains_awaiters_with_ebadf (s : SchedState) (fd : Int)
    (g : Fiber) :
    (unwatchIODrain s fd).ioWaiters = s.ioWaiters.filter (fun f => ¬ f.fd = fd) ∧
    (unwatchIODrain s fd).readyQueue =
      s.readyQueue ++ (s.ioWaiters.filter (fun f => f.fd = fd)).map unwatchDrainFiber ∧
    (unwatchIODrain s fd).fiberCount = s.fiberCount ∧
    (unwatchIODrain s fd).deadQueue = s.deadQueue ∧
    (unwatchDrainFiber g).status = -EBADF ∧
    (unwatchDrainFiber g).inTimer = false ∧
    awaitIOEventResume (-EBADF) = some (-1, some EBADF) :=
  ⟨rfl, rfl, rfl, rfl, rfl, rfl, by decide⟩

/-- C3: yieldCurrentFiber is a no-op when the ready queue is empty;
otherwise it saves the running fiber's context with status 1, appends the
yielder at the ready-queue tail and dispatches the head. Since every
ready-queue insertion in the scheduler is a tail insertion and every
dispatch pops the head, the pops that precede the yielder's resumption
are exactly the fibers that were queued ahead of it, so every fiber that
was in the ready queue at the moment of the yield runs at least once
before the yielder resumes. -/
theorem yield_current_fiber_fifo (self hd : Nat) (t : List Nat)
    (evs : List QEv) (q1 p : List Nat) (f : Fiber) (ctx : Nat) :
    (yieldSuspend f ctx).context = some ctx ∧
    (yieldSuspend f ctx).status = 1 ∧
    yieldCurrentFiber self [] = none ∧
    yieldCurrentFiber self (hd :: t) = some (hd, t ++ [self]) ∧
    (QSteps (t ++ [self]) evs q1 → popsOf evs = p ++ [self] →
      self ∉ p → self ∉ t → p = t) := by
  refine ⟨rfl, rfl, rfl, rfl, ?_⟩
  intro hsteps hpops hsp hst
  have hinv := qsteps_pops_append hsteps
  rw [hpops, List.append_assoc, List.append_assoc] at hinv
  exact (append_cons_inj p t q1 (pushesOf evs) hinv hsp hst).1

theorem yield_current_fiber_fifo_witness :
    QSteps [2, 3, 9] [QEv.pop 2, QEv.push 7, QEv.pop 3, QEv.pop 9] [7] ∧
    yieldCurrentFiber 9 [1, 2, 3] = some (1, [2, 3, 9]) ∧
    ([2, 3] : List Nat) = [2, 3] := by
  have hsteps : QSteps [2, 3, 9] [QEv.pop 2, QEv.push 7, QEv.pop 3, QEv.pop 9] [7] :=
    QSteps.cons (QStep.pop 2 [3, 9])
      (QSteps.cons (QStep.push 7 [3, 9])
        (QSteps.cons (QStep.pop 3 [9, 7])
          (QSteps.cons (QStep.pop 9 [7]) (QSteps.nil [7]))))
  refine ⟨hsteps, ?_, ?_⟩
  · exact (yield_current_fiber_fifo 9 1 [2, 3]
      [QEv.pop 2, QEv.push 7, QEv.pop 3, QEv.pop 9] [7] [2, 3] exampleFiber 0).2.2.2.1
  · exact (yield_current_fiber_fifo 9 1 [2, 3]
      [QEv.pop 2, QEv.push 7, QEv.pop 3, QEv.pop 9] [7] [2, 3] exampleFiber 0).2.2.2.2
      hsteps rfl (by decide) (by decide)

/-- C4: callCoroutine with a (non-null) coroutine enqueues one fiber at
the ready-queue tail without context-switching: a non-empty dead queue
means its head is recycled with its coroutine reassigned and fiberCount
unchanged; an empty dead queue means a fresh fiber is allocated and
fiberCount is incremented by one. -/
theorem call_coroutine_enqueues_tail (s : SchedState) (c : Nat) (f : Fiber)
    (rest : List Fiber) :
    (s.deadQueue = f :: rest →
      callCoroutine s c =
        { s with deadQueue := rest,
                 readyQueue := s.readyQueue ++ [{ f with coroutine := c }] }) ∧
    (s.deadQueue = [] →
      callCoroutine s c =
        { s with fiberCount := s.fiberCount + 1,
                 readyQueue := s.readyQueue ++ [CreateFiberModel c] }) ∧
    (callCoroutine s c).runningFiber = s.runningFiber ∧
    (callCoroutine s c).ioWaiters = s.ioWaiters ∧
    (s.deadQueue = f :: rest → (callCoroutine s c).fiberCount = s.fiberCount) := by
  refine ⟨?_, ?_, ?_, ?_, ?_⟩
  · intro hdq
    simp [callCoroutine, hdq]
  · intro hdq
    simp [callCoroutine, hdq]
  · cases hdq : s.deadQueue <;> simp [callCoroutine, hdq]
  · cases hdq : s.deadQueue <;> simp [callCoroutine, hdq]
  · intro hdq
    simp [callCoroutine, hdq]

theorem call_coroutine_enqueues_tail_witness :
    (exampleSchedRecycle.deadQueue = exampleDeadFiber :: [] ∧
      (callCoroutine exampleSchedRecycle 7).fiberCount = exampleSchedRecycle.fiberCount) ∧
    (exampleSchedFresh.deadQueue = [] ∧
      callCoroutine exampleSchedFresh 7 =
        { exampleSchedFresh with
            fiberCount := exampleSchedFresh.fiberCount + 1,
            readyQueue := exampleSchedFresh.readyQueue ++ [CreateFiberModel 7] }) :=
  ⟨⟨rfl, (call_coroutine_enqueues_tail exampleSchedRecycle 7 exampleDeadFiber []).2.2.2.2 rfl⟩,
   ⟨rfl, (call_coroutine_enqueues_tail exampleSchedFresh 7 exampleDeadFiber []).2.1 rfl⟩⟩

/-- C6: Close on an unwatched fd returns -1 with errno EBADF without
calling close or unwatchIO; on a watched fd it retries the close syscall
on EINTR and calls unwatchIO afterward on both the success and the
failure path, returning 0 on success and -1 on failure. -/
theorem close_requires_watched_retries_eintr (rs : List SysRes) (v e : Int) :
    Close false rs =
      some { ret := -1, errnoOut := some EBADF, closeCalled := false,
             unwatchCalled := false } ∧
    closeRetryLoop (SysRes.err EINTR :: rs) = closeRetryLoop rs ∧
    (closeRetryLoop rs = some (SysRes.ok v) →
      Close true rs =
        some { ret := 0, errnoOut := none, closeCalled := true,
               unwatchCalled := true }) ∧
    (closeRetryLoop rs = some (SysRes.err e) →
      Close true rs =
        some { ret := -1, errnoOut := some e, closeCalled := true,
               unwatchCalled := true }) := by
  refine ⟨?_, ?_, ?_, ?_⟩
  · simp [Close]
  · simp [closeRetryLoop]
  · intro hl
    simp [Close, hl]
  · intro hl
    simp [Close, hl]

theorem close_requires_watched_retries_eintr_witness :
    (closeRetryLoop [SysRes.err EINTR, SysRes.ok 0] = some (SysRes.ok 0) ∧
      Close true [SysRes.err EINTR, SysRes.ok 0] =
        some { ret := 0, errnoOut := none, closeCalled := true,
               unwatchCalled := true }) ∧
    (closeRetryLoop [SysRes.err 13] = some (SysRes.err 13) ∧
      Close true [SysRes.err 13] =
        some { ret := -1, errnoOut := some 13, closeCalled := true,
               unwatchCalled := true }) :=
  ⟨⟨by decide,
    (close_requires_watched_retries_eintr [SysRes.err EINTR, SysRes.ok 0] 0 13).2.2.1
      (by decide)⟩,
   ⟨by decide,
    (close_requires_watched_retries_eintr [SysRes.err 13] 0 13).2.2.2 (by decide)⟩⟩

/-- C7: Connect on a watched fd makes a single connect attempt; when the
attempt fails with EINPROGRESS it awaits Writability and then reads
SO_ERROR: a non-zero SO_ERROR (e.g. ECONNREFUSED) becomes the errno of a
-1 return, while immediate success or a zero SO_ERROR returns 0. -/
theorem connect_single_attempt_so_error (resumeStatus soVal v : Int)
    (cr se : SysRes) (o : ConnectOutcome) :
    (Connect true (SysRes.ok v) resumeStatus se =
      some { ret := 0, errnoOut := none, connectAttempts := 1, awaited := none }) ∧
    (0 < resumeStatus → ¬ soVal = 0 →
      Connect true (SysRes.err EINPROGRESS) resumeStatus (SysRes.ok soVal) =
        some { ret := -1, errnoOut := some soVal, connectAttempts := 1,
               awaited := some IOEvent.Writability }) ∧
    (0 < resumeStatus →
      Connect true (SysRes.err EINPROGRESS) resumeStatus (SysRes.ok 0) =
        some { ret := 0, errnoOut := none, connectAttempts := 1,
               awaited := some IOEvent.Writability }) ∧
    (Connect true cr resumeStatus se = some o → o.connectAttempts = 1) := by
  have hawait : 0 < resumeStatus → awaitIOEventResume resumeStatus = some (0, none) := by
    intro hrs
    unfold awaitIOEventResume
    rw [if_neg (by omega), if_neg (by omega)]
  refine ⟨?_, ?_, ?_, ?_⟩
  · simp [Connect]
  · intro hrs hsv
    simp [Connect, hawait hrs, hsv, EINPROGRESS, EINTR]
  · intro hrs
    simp [Connect, hawait hrs]
  · intro hco
    unfold Connect at hco
    rw [if_neg (show ¬ ¬ (true = true) by simp)] at hco
    split at hco
    · injection hco with h2
      rw [← h2]
    · split at hco
      · injection hco with h2
        rw [← h2]
      · split at hco
        · exact Option.noConfusion hco
        · split at hco
          · injection hco with h2
            rw [← h2]
          · split at hco
            · injection hco with h2
              rw [← h2]
            · split at hco
              · injection hco with h2
                rw [← h2]
              · injection hco with h2
                rw [← h2]

theorem connect_single_attempt_so_error_witness :
    ((0 : Int) < 1 ∧ ¬ (ECONNREFUSED : Int) = 0) ∧
    Connect true (SysRes.err EINPROGRESS) 1 (SysRes.ok ECONNREFUSED) =
      some { ret := -1, errnoOut := some ECONNREFUSED, connectAttempts := 1,
             awaited := some IOEvent.Writability } ∧
    Connect true (SysRes.err EINPROGRESS) 1 (SysRes.ok 0) =
      some { ret := 0, errnoOut := none, connectAttempts := 1,
             awaited := some IOEvent.Writability } :=
  ⟨⟨by decide, by decide⟩,
   (connect_single_attempt_so_error 1 ECONNREFUSED 0 (SysRes.ok 0) (SysRes.ok 0)
     { ret := 0, errnoOut := none, connectAttempts := 1, awaited := none }).2.1
     (by decide) (by decide),
   (connect_single_attempt_so_error 1 ECONNREFUSED 0 (SysRes.ok 0) (SysRes.ok 0)
     { ret := 0, errnoOut := none, connectAttempts := 1, awaited := none }).2.2.1
     (by decide)⟩

/-- C8: the claim says CreateFiber detects mmap failure by comparing
against the correct failure sentinel. mmap reports failure with the
MAP_FAILED sentinel, but the source's fatal check compares the region
against nullptr, so a failed mapping passes the check and a Fiber record
is constructed on it: the code contradicts the intended fatal policy. -/
theorem create_fiber_null_check_misses_map_failed :
    mmapFailed MmapResult.mapFailed = true ∧
    createFiberFatalCheck MmapResult.mapFailed = false ∧
    createFiberConstructs MmapResult.mapFailed = true ∧
    createFiberFatalCheck MmapResult.nullPtr = true := by
  decide

end Tara
